import Mathlib

/-!
Shallow embedding of the crates.io token model (`src/models/token.rs`), the
dependency-kind decoding (`src/models/dependency.rs`), and the pieces of the
token codec that the spec describes (`crate::util::token`, not part of the
excerpted sources).

The database connection is modelled as an explicit state value (`Conn`): a
list of `api_tokens` rows plus a flag describing whether the write path is
currently failing and, if so, with which failure class. Diesel operations are
translated to explicit functions on that state; fallible operations return
`Except`.
-/

/-- Kinds of secure tokens. The excerpted source uses a single kind,
`SecureTokenKind::Api`. -/
inductive SecureTokenKind where
  | api
deriving DecidableEq, Repr

/-- Modelled from the spec: the kind-specific literal tag prepended to the
secret to form the displayed plaintext (`crate::util::token` is not among the
excerpted sources; the spec calls it a "kind-specific literal prefix"). -/
def kindTag : SecureTokenKind → List Char
  | .api => ['c', 'i', 'o']

/-- Modelled from the spec: the fixed secret length appropriate to the kind
(an implementation parameter per kind; the concrete value is arbitrary in the
model). -/
def secretLen : SecureTokenKind → Nat
  | .api => 8

/-- Modelled from the spec: the one-way, collision-resistant digest of the
secret bytes. Cryptographic one-wayness is outside the embedding; the model
keeps the digest as an injective encoding of the secret, which is all the
claims depend on. -/
def hashDigest (secret : List Char) : List Char :=
  '#' :: secret

/-- Result of token generation: the displayed plaintext and the stored
digest. -/
structure GeneratedToken where
  plaintext : List Char
  digest : List Char
deriving DecidableEq, Repr

namespace SecureToken

/-- Modelled from the spec: `SecureToken::generate(kind)` draws a secure
random secret (the entropy source is made explicit as the `secret` argument),
prepends the kind tag to form the displayed plaintext, and digests the secret
bytes (not the prefixed display string) for storage. -/
def generate (kind : SecureTokenKind) (secret : List Char) : GeneratedToken :=
  { plaintext := kindTag kind ++ secret, digest := hashDigest secret }

/-- Modelled from the spec: `SecureToken::parse(kind, presented)` requires
`presented` to start with exactly the tag for `kind` and to have the expected
total length and charset for that kind; on success it returns the digest of
the secret portion, and on any structural mismatch it returns `none`. -/
def parse (kind : SecureTokenKind) (presented : List Char) : Option (List Char) :=
  let p := kindTag kind
  if presented.take p.length = p ∧
      presented.length = p.length + secretLen kind ∧
      (presented.drop p.length).all Char.isAlphanum = true then
    some (hashDigest (presented.drop p.length))
  else
    none

end SecureToken

/-- A row of the `api_tokens` table (`pub struct ApiToken` in
`src/models/token.rs`). `token` holds the stored digest (the `SecureToken`
column); timestamps are modelled as integers. -/
structure ApiToken where
  id : Int
  user_id : Int
  token : List Char
  name : String
  created_at : Int
  last_used_at : Option Int
  revoked : Bool
  crate_scopes : Option (List String)
  endpoint_scopes : Option (List String)
deriving DecidableEq, Repr

/-- The failure classes a rejected write can carry: the read-only-database
class the source's comment singles out, and every other class. -/
inductive WriteFailure where
  | readOnly
  | other
deriving DecidableEq, Repr

/-- Diesel-level errors surfaced by the modelled store operations. -/
inductive DbError where
  | notFound
  | writeFailed (w : WriteFailure)
deriving DecidableEq, Repr

/-- Application-level errors of `find_by_api_token`: the
`InsecurelyGeneratedTokenRevoked` rejection produced on parse failure, and
database errors converted via `map_err(Into::into)`. -/
inductive AppError where
  | insecurelyGeneratedTokenRevoked
  | database (e : DbError)
deriving DecidableEq, Repr

/-- The modelled database connection: the stored rows, the current state of
the write path (`none` means writes succeed; `some w` means any write fails
with class `w`), the clock value used for SQL `now`, and the next surrogate
id handed out on insert. -/
structure Conn where
  rows : List ApiToken
  writeError : Option WriteFailure
  now : Int
  nextId : Int
deriving DecidableEq, Repr

/-- The filter of the `tokens` query in `find_by_api_token`:
`.filter(revoked.eq(false)).filter(token.eq(&token_))`. -/
def rowMatches (digest : List Char) (r : ApiToken) : Bool :=
  !r.revoked && r.token == digest

/-- The `set(last_used_at.eq(now.nullable()))` update applied to one row. -/
def touchRow (now : Int) (r : ApiToken) : ApiToken :=
  { r with last_used_at := some now }

/-- The transaction `conn.transaction(|conn| update(tokens).set(last_used_at
.eq(now.nullable())).get_result(conn))`: it fails with the write failure
class when the write path is failing, fails with `NotFound` when no row
matches the filter, and otherwise updates the matching rows and returns the
(first) updated row. -/
def touchTransaction (c : Conn) (digest : List Char) :
    Except DbError (ApiToken × Conn) :=
  match c.writeError with
  | some w => .error (.writeFailed w)
  | none =>
    match c.rows.find? (rowMatches digest) with
    | none => .error .notFound
    | some r =>
      .ok (touchRow c.now r,
        { c with
          rows := c.rows.map fun q =>
            if rowMatches digest q then touchRow c.now q else q })

/-- `ApiToken::find_by_api_token` (`src/models/token.rs`): parse the
presented string (failure yields `InsecurelyGeneratedTokenRevoked`), try the
touch-update in a transaction, and on any transaction error fall back to the
pure read `tokens.first(conn)`; a remaining error is converted with
`map_err(Into::into)`. -/
def find_by_api_token (c : Conn) (token_ : List Char) :
    Except AppError (ApiToken × Conn) :=
  match SecureToken.parse .api token_ with
  | none => .error .insecurelyGeneratedTokenRevoked
  | some digest =>
    match touchTransaction c digest with
    | .ok rc => .ok rc
    | .error _ =>
      match c.rows.find? (rowMatches digest) with
      | some r => .ok (r, c)
      | none => .error (.database .notFound)

/-- `pub struct CreatedApiToken` (`src/models/token.rs`). -/
structure CreatedApiToken where
  model : ApiToken
  plaintext : List Char
deriving DecidableEq, Repr

/-- `ApiToken::insert_with_scopes` (`src/models/token.rs`): generate a fresh
token, insert a row carrying the digest and the given metadata, and return
the stored row together with the one-time plaintext. The entropy drawn by
`SecureToken::generate` is explicit as `secret`. The inserted row's
`revoked = false` and `last_used_at = NULL` come from the table defaults of
the schema (not among the excerpted sources; modelled from the spec, which
fixes exactly those defaults). The insert fails when the write path is
failing, propagated by the `?` on `get_result`. -/
def insert_with_scopes (c : Conn) (user_id : Int) (name : String)
    (crate_scopes : Option (List String))
    (endpoint_scopes : Option (List String))
    (secret : List Char) : Except DbError (CreatedApiToken × Conn) :=
  let token := SecureToken.generate .api secret
  match c.writeError with
  | some w => .error (.writeFailed w)
  | none =>
    let model : ApiToken :=
      { id := c.nextId
        user_id := user_id
        token := token.digest
        name := name
        created_at := c.now
        last_used_at := none
        revoked := false
        crate_scopes := crate_scopes
        endpoint_scopes := endpoint_scopes }
    .ok ({ model := model, plaintext := token.plaintext },
      { c with rows := c.rows ++ [model], nextId := c.nextId + 1 })

/-- `ApiToken::insert` (`src/models/token.rs`): `insert_with_scopes` with no
scope restrictions. -/
def ApiToken.insert (c : Conn) (user_id : Int) (name : String)
    (secret : List Char) : Except DbError (CreatedApiToken × Conn) :=
  insert_with_scopes c user_id name none none secret

/-- The three dependency kinds (`src/models/dependency.rs`). -/
inductive DependencyKind where
  | Normal
  | Build
  | Dev
deriving DecidableEq, Repr

/-- The declared integer representation of each variant (`#[repr(u32)]` with
explicit discriminants `Normal = 0, Build = 1, Dev = 2`). -/
def DependencyKind.toInt : DependencyKind → Int
  | .Normal => 0
  | .Build => 1
  | .Dev => 2

/-- `DependencyKind::from_sql` (`src/models/dependency.rs`): decode a
persisted integer, failing with an "unknown kind" error on anything other
than 0, 1, 2. The byte-level decoding to `i32` done by diesel before the
match is outside the model. -/
def DependencyKind.from_sql (n : Int) : Except String DependencyKind :=
  if n = 0 then .ok .Normal
  else if n = 1 then .ok .Build
  else if n = 2 then .ok .Dev
  else .error ("unknown kind: " ++ toString n)

/-- Rendering of an optional timestamp in debug output. -/
def debugOptionInt : Option Int → String
  | none => "None"
  | some t => "Some(" ++ toString t ++ ")"

/-- Rendering of an optional scope list in debug output. -/
def debugScopes : Option (List String) → String
  | none => "None"
  | some l => "Some(" ++ String.intercalate ", " l ++ ")"

/-- The derived `Debug` rendering of `ApiToken`: a function of every field of
the row. -/
def debugApiToken (t : ApiToken) : String :=
  "ApiToken \x7b id: " ++ toString t.id ++
  ", user_id: " ++ toString t.user_id ++
  ", token: " ++ String.mk t.token ++
  ", name: " ++ t.name ++
  ", created_at: " ++ toString t.created_at ++
  ", last_used_at: " ++ debugOptionInt t.last_used_at ++
  ", revoked: " ++ toString t.revoked ++
  ", crate_scopes: " ++ debugScopes t.crate_scopes ++
  ", endpoint_scopes: " ++ debugScopes t.endpoint_scopes ++ " \x7d"

/-- The custom `Debug` impl of `CreatedApiToken` (`src/models/token.rs`): it
renders the model and the fixed string `(sensitive)` in place of the
plaintext field. -/
def debugCreatedApiToken (c : CreatedApiToken) : String :=
  "CreatedApiToken \x7b model: " ++ debugApiToken c.model ++
  ", plaintext: \"(sensitive)\" \x7d"

/-- Modelled from the spec: `crate::util::rfc3339` timestamp formatting is
not among the excerpted sources. The claims depend only on which fields feed
the serialized output, so a timestamp is rendered by a fixed function of its
value. -/
def rfc3339 (t : Int) : String :=
  "ts:" ++ toString t

/-- The `rfc3339::option` rendering of a nullable timestamp. -/
def rfc3339Option : Option Int → String
  | none => "null"
  | some t => rfc3339 t

/-- The serde serialization of `ApiToken` (`src/models/token.rs`): the fields
marked `#[serde(skip)]` (`user_id`, `token`, `revoked`, `crate_scopes`,
`endpoint_scopes`) are omitted, `created_at` and `last_used_at` go through
the rfc3339 renderers, and the output is the ordered list of emitted
key-value pairs. -/
def serializeApiToken (t : ApiToken) : List (String × String) :=
  [("id", toString t.id),
   ("name", t.name),
   ("created_at", rfc3339 t.created_at),
   ("last_used_at", rfc3339Option t.last_used_at)]

/-- Pointwise order on optional timestamps: an unset `last_used_at` is below
everything; set values compare as integers. -/
def optTimeLe : Option Int → Option Int → Prop
  | none, _ => True
  | some _, none => False
  | some a, some b => a ≤ b

instance decOptTimeLe (a b : Option Int) : Decidable (optTimeLe a b) := by
  cases a with
  | none => exact isTrue trivial
  | some x =>
    cases b with
    | none => exact isFalse id
    | some y => exact inferInstanceAs (Decidable (x ≤ y))

instance exceptDecEq {ε α : Type} [DecidableEq ε] [DecidableEq α] :
    DecidableEq (Except ε α) := fun x y =>
  match x, y with
  | .ok a, .ok b =>
    if h : a = b then isTrue (by rw [h])
    else isFalse (by intro hc; cases hc; exact h rfl)
  | .error e, .error f =>
    if h : e = f then isTrue (by rw [h])
    else isFalse (by intro hc; cases hc; exact h rfl)
  | .ok _, .error _ => isFalse (by intro hc; cases hc)
  | .error _, .ok _ => isFalse (by intro hc; cases hc)

/-- Concrete sample secret (length and charset match the `api` kind). -/
def secretW : List Char := ['a', 'b', 'c', 'd', 'e', 'f', 'g', 'h']

/-- The stored digest of the sample secret. -/
def digestW : List Char := hashDigest secretW

/-- The displayed plaintext of the sample token. -/
def tokApiW : List Char := kindTag .api ++ secretW

/-- A sample string that parses as no known token kind. -/
def badTokW : List Char := ['x']

/-- A stored, never-used, non-revoked row carrying the sample digest. -/
def rowFreshW : ApiToken :=
  { id := 1, user_id := 7, token := digestW, name := "tok", created_at := 50,
    last_used_at := none, revoked := false, crate_scopes := none,
    endpoint_scopes := none }

/-- The sample row after a touch at time 100. -/
def rowTouchedW : ApiToken := { rowFreshW with last_used_at := some 100 }

/-- The sample row with a recorded previous use at time 5. -/
def rowUsedW : ApiToken := { rowFreshW with last_used_at := some 5 }

/-- The sample row, revoked. -/
def rowRevokedW : ApiToken := { rowFreshW with id := 2, revoked := true }

/-- A writable connection holding the fresh sample row. -/
def connW : Conn :=
  { rows := [rowFreshW], writeError := none, now := 100, nextId := 5 }

/-- The writable connection after the touch. -/
def connW' : Conn := { connW with rows := [rowTouchedW] }

/-- A connection holding only the revoked sample row. -/
def connRevokedW : Conn :=
  { rows := [rowRevokedW], writeError := none, now := 100, nextId := 6 }

/-- A read-only connection holding the previously-used sample row. -/
def connROW : Conn :=
  { rows := [rowUsedW], writeError := some .readOnly, now := 10, nextId := 3 }

/-- A connection whose writes fail with a class other than read-only. -/
def connOtherW : Conn :=
  { rows := [rowUsedW], writeError := some .other, now := 10, nextId := 3 }

/-- The row stored by the sample insert below. -/
def modelW : ApiToken :=
  { id := 5, user_id := 7, token := digestW, name := "tok2", created_at := 100,
    last_used_at := none, revoked := false, crate_scopes := some ["serde"],
    endpoint_scopes := some ["publish"] }

/-- The created-token value returned by the sample insert. -/
def createdW : CreatedApiToken := { model := modelW, plaintext := tokApiW }

/-- A created-token value with the same model and a different plaintext. -/
def createdW2 : CreatedApiToken :=
  { model := modelW, plaintext := ['o', 't', 'h', 'e', 'r'] }

/-- The writable connection after the sample insert. -/
def connInsW : Conn :=
  { connW with rows := connW.rows ++ [modelW], nextId := 6 }

/-- A row agreeing with `rowFreshW` on the serialized fields and differing on
every skipped one. -/
def rowSerB : ApiToken :=
  { rowFreshW with
    user_id := 99
    token := ['z']
    revoked := true
    crate_scopes := some ["x"]
    endpoint_scopes := some [] }

lemma optTimeLe_refl (a : Option Int) : optTimeLe a a := by
  cases a with
  | none => trivial
  | some x => exact le_refl x

lemma revoked_false_of_find? {d : List Char} {l : List ApiToken} {r : ApiToken}
    (h : l.find? (rowMatches d) = some r) : r.revoked = false := by
  have hm := List.find?_some h
  simp only [rowMatches, Bool.and_eq_true, Bool.not_eq_true', beq_iff_eq] at hm
  exact hm.1

lemma find?_rowMatches_none {d : List Char} {l : List ApiToken}
    (h : ∀ q ∈ l, q.token = d → q.revoked = true) :
    l.find? (rowMatches d) = none := by
  apply List.find?_eq_none.2
  intro q hq
  simp only [rowMatches, Bool.and_eq_true, Bool.not_eq_true', beq_iff_eq, not_and]
  intro h1 h2
  rw [h q hq h2] at h1
  exact Bool.noConfusion h1

/-- C1: `find_by_api_token` matches only rows with `revoked = false`, so a
revoked token is never returned; when every row carrying the looked-up digest
is revoked, the lookup reports an error (not-found). -/
theorem find_by_api_token_rejects_revoked (c : Conn) (s : List Char) :
    (∀ r c', find_by_api_token c s = .ok (r, c') → r.revoked = false) ∧
    (∀ d, SecureToken.parse .api s = some d →
      (∀ q ∈ c.rows, q.token = d → q.revoked = true) →
      ∃ e, find_by_api_token c s = .error e) := by
  constructor
  · intro r c' hfind
    unfold find_by_api_token at hfind
    split at hfind
    · exact Except.noConfusion hfind
    · rename_i d hp
      split at hfind
      · rename_i rc ht
        injection hfind with h1
        subst h1
        unfold touchTransaction at ht
        split at ht
        · exact Except.noConfusion ht
        · split at ht
          · exact Except.noConfusion ht
          · rename_i r0 hf
            injection ht with h2
            have h2a : touchRow c.now r0 = r := congrArg Prod.fst h2
            have h3 := revoked_false_of_find? hf
            rw [← h2a]
            simpa [touchRow] using h3
      · rename_i e ht
        split at hfind
        · rename_i r0 hf
          injection hfind with h1
          have h1a : r0 = r := congrArg Prod.fst h1
          rw [← h1a]
          exact revoked_false_of_find? hf
        · exact Except.noConfusion hfind
  · intro d hp hall
    have hnone := find?_rowMatches_none hall
    refine ⟨.database .notFound, ?_⟩
    cases hw : c.writeError with
    | some w => simp [find_by_api_token, touchTransaction, hp, hnone, hw]
    | none => simp [find_by_api_token, touchTransaction, hp, hnone, hw]

/-- C2: when the write path fails with the read-only class, `find_by_api_token`
on a stored matching row still returns that row unchanged (in particular with
`last_used_at` untouched) and leaves the store unchanged, instead of
propagating the write failure. -/
theorem find_by_api_token_read_only_fallback (c : Conn) (s d : List Char)
    (r : ApiToken)
    (hro : c.writeError = some WriteFailure.readOnly)
    (hparse : SecureToken.parse .api s = some d)
    (hfound : c.rows.find? (rowMatches d) = some r) :
    find_by_api_token c s = .ok (r, c) := by
  simp [find_by_api_token, touchTransaction, hro, hparse, hfound]

/-- C3 counterexample: a touch write failing with a class other than
read-only does not propagate as a store error; `find_by_api_token` falls back
to the pure read and succeeds. -/
theorem find_by_api_token_fallback_not_read_only_specific :
    connOtherW.writeError = some WriteFailure.other ∧
    find_by_api_token connOtherW tokApiW = .ok (rowUsedW, connOtherW) := by
  exact ⟨rfl, by decide⟩

/-- C3 amended: the fallback from touch-write to pure read is taken for every
failure class of the touch write, not only the read-only class; an error
surfaces only when the fallback read itself finds no row. -/
theorem find_by_api_token_fallback_any_write_failure (c : Conn)
    (s d : List Char) (w : WriteFailure)
    (hw : c.writeError = some w)
    (hparse : SecureToken.parse .api s = some d) :
    find_by_api_token c s =
      (match c.rows.find? (rowMatches d) with
       | some r => .ok (r, c)
       | none => .error (.database .notFound)) := by
  cases hf : c.rows.find? (rowMatches d) with
  | none => simp [find_by_api_token, touchTransaction, hw, hparse, hf]
  | some r => simp [find_by_api_token, touchTransaction, hw, hparse, hf]

/-- C4: when the presented string does not parse as a valid token of the
known kind, `find_by_api_token` fails with `InsecurelyGeneratedTokenRevoked`
for every store state, so the store is never consulted and the token is never
accepted. -/
theorem find_by_api_token_parse_failure_rejected (c : Conn) (s : List Char)
    (hparse : SecureToken.parse .api s = none) :
    find_by_api_token c s = .error .insecurelyGeneratedTokenRevoked := by
  simp [find_by_api_token, hparse]

/-- C5 counterexample: under a read-only store, `find_by_api_token` succeeds
on a valid row without setting `last_used_at` to the current time, so not
every successful call performs the touch. -/
theorem find_by_api_token_success_without_touch :
    find_by_api_token connROW tokApiW = .ok (rowUsedW, connROW) ∧
    connROW.now = 10 ∧
    rowUsedW.last_used_at = some 5 ∧
    ¬ rowUsedW.last_used_at = some connROW.now := by
  refine ⟨by decide, rfl, rfl, by decide⟩

/-- C5 amended: a successful `find_by_api_token` whose touch write goes
through sets `last_used_at` of the returned row to the current time; in every
case each stored row's `last_used_at` is either unchanged or set to the
current time, so whenever the clock is at or after a row's recorded value the
recorded value never decreases across calls. -/
theorem find_by_api_token_touch_monotonic (c : Conn) (s : List Char)
    (r : ApiToken) (c' : Conn)
    (hfind : find_by_api_token c s = .ok (r, c')) :
    (c.writeError = none → r.last_used_at = some c.now) ∧
    List.Forall₂ (fun q q' => q.id = q'.id ∧
      (q'.last_used_at = q.last_used_at ∨ q'.last_used_at = some c.now) ∧
      (optTimeLe q.last_used_at (some c.now) →
        optTimeLe q.last_used_at q'.last_used_at)) c.rows c'.rows := by
  unfold find_by_api_token at hfind
  split at hfind
  · exact Except.noConfusion hfind
  · rename_i d hp
    split at hfind
    · rename_i rc ht
      injection hfind with h1
      subst h1
      unfold touchTransaction at ht
      split at ht
      · exact Except.noConfusion ht
      · rename_i hw
        split at ht
        · exact Except.noConfusion ht
        · rename_i r0 hf
          injection ht with h2
          injection h2 with h2a h2b
          subst h2a
          subst h2b
          constructor
          · intro _
            rfl
          · refine List.forall₂_map_right_iff.2 (List.forall₂_same.2 ?_)
            intro q _
            by_cases hm : rowMatches d q = true
            · rw [if_pos hm]
              exact ⟨rfl, Or.inr rfl, fun h => h⟩
            · rw [if_neg hm]
              exact ⟨rfl, Or.inl rfl, fun _ => optTimeLe_refl _⟩
    · rename_i e ht
      split at hfind
      · rename_i r0 hf
        injection hfind with h1
        injection h1 with h1a h1b
        subst h1a
        subst h1b
        constructor
        · intro hw
          exfalso
          simp [touchTransaction, hw, hf] at ht
        · exact List.forall₂_same.2 fun q _ =>
            ⟨rfl, Or.inl rfl, fun _ => optTimeLe_refl _⟩
      · exact Except.noConfusion hfind

/-- C6: a successful `insert_with_scopes` stores a new row with
`revoked = false` and `last_used_at = None` carrying the given metadata and
the generated token's digest, appends it to the store, and returns the stored
row together with the plaintext of the very token whose digest was stored. -/
theorem insert_with_scopes_fresh_row (c : Conn) (uid : Int) (nm : String)
    (cs es : Option (List String)) (secret : List Char)
    (created : CreatedApiToken) (c' : Conn)
    (h : insert_with_scopes c uid nm cs es secret = .ok (created, c')) :
    created.model.revoked = false ∧
    created.model.last_used_at = none ∧
    c'.rows = c.rows ++ [created.model] ∧
    created.plaintext = (SecureToken.generate .api secret).plaintext ∧
    created.model.token = (SecureToken.generate .api secret).digest ∧
    created.model.user_id = uid ∧
    created.model.name = nm ∧
    created.model.crate_scopes = cs ∧
    created.model.endpoint_scopes = es := by
  unfold insert_with_scopes at h
  split at h
  · exact Except.noConfusion h
  · injection h with h1
    injection h1 with h1a h1b
    subst h1a
    subst h1b
    exact ⟨rfl, rfl, rfl, rfl, rfl, rfl, rfl, rfl, rfl⟩

/-- C7: parsing the displayed plaintext of a generated token for the same
kind succeeds and yields exactly the digest produced at generation time, for
every supported kind and every secret of the kind's length and charset. -/
theorem parse_generate_round_trip (kind : SecureTokenKind) (secret : List Char)
    (hlen : secret.length = secretLen kind)
    (hcs : secret.all Char.isAlphanum = true) :
    SecureToken.parse kind (SecureToken.generate kind secret).plaintext =
      some (SecureToken.generate kind secret).digest := by
  unfold SecureToken.parse SecureToken.generate
  simp [List.take_left, List.drop_left, List.length_append, hlen, hcs]

/-- C8: decoding a persisted dependency-kind integer inverts the declared
representation on 0, 1, 2 (yielding Normal, Build, Dev) and fails with the
"unknown kind" error on every other integer. -/
theorem DependencyKind.from_sql_decode (n : Int)
    (h0 : n ≠ 0) (h1 : n ≠ 1) (h2 : n ≠ 2) :
    (∀ k, DependencyKind.from_sql (DependencyKind.toInt k) = .ok k) ∧
    DependencyKind.from_sql 0 = .ok .Normal ∧
    DependencyKind.from_sql 1 = .ok .Build ∧
    DependencyKind.from_sql 2 = .ok .Dev ∧
    DependencyKind.from_sql n = .error ("unknown kind: " ++ toString n) := by
  refine ⟨?_, rfl, rfl, rfl, ?_⟩
  · intro k
    cases k <;> rfl
  · unfold DependencyKind.from_sql
    rw [if_neg h0, if_neg h1, if_neg h2]

/-- C9: the debug rendering of `CreatedApiToken` is independent of the
plaintext field: two values with the same model and any plaintexts render
identically, the plaintext being replaced by the fixed string
`"(sensitive)"`. -/
theorem debugCreatedApiToken_plaintext_independent (a b : CreatedApiToken)
    (h : a.model = b.model) :
    debugCreatedApiToken a = debugCreatedApiToken b := by
  simp [debugCreatedApiToken, h]

/-- C10: the serde serialization of `ApiToken` is a function of `id`, `name`,
`created_at` and `last_used_at` alone: two rows agreeing on those four fields
serialize identically regardless of `user_id`, the stored digest, `revoked`
and the scopes. -/
theorem serializeApiToken_skips_sensitive (a b : ApiToken)
    (hid : a.id = b.id) (hname : a.name = b.name)
    (hca : a.created_at = b.created_at)
    (hlua : a.last_used_at = b.last_used_at) :
    serializeApiToken a = serializeApiToken b := by
  simp [serializeApiToken, hid, hname, hca, hlua]

/-- Witness for C1 at concrete inputs: a writable store returns the
non-revoked sample row, and a store holding only the revoked sample row
reports an error. -/
theorem find_by_api_token_rejects_revoked_witness :
    rowTouchedW.revoked = false ∧
    ∃ e, find_by_api_token connRevokedW tokApiW = .error e :=
  ⟨(find_by_api_token_rejects_revoked connW tokApiW).1 rowTouchedW connW'
      (by decide),
   (find_by_api_token_rejects_revoked connRevokedW tokApiW).2 digestW
      (by decide) (by decide)⟩

/-- Witness for C2 at concrete inputs: the read-only sample store returns the
stored row unchanged. -/
theorem find_by_api_token_read_only_fallback_witness :
    find_by_api_token connROW tokApiW = .ok (rowUsedW, connROW) :=
  find_by_api_token_read_only_fallback connROW tokApiW digestW rowUsedW
    (by decide) (by decide) (by decide)

/-- Witness for C3 (amended) at concrete inputs: a write failure of the
non-read-only class still resolves through the fallback read. -/
theorem find_by_api_token_fallback_any_write_failure_witness :
    find_by_api_token connOtherW tokApiW =
      (match connOtherW.rows.find? (rowMatches digestW) with
       | some r => .ok (r, connOtherW)
       | none => .error (.database .notFound)) :=
  find_by_api_token_fallback_any_write_failure connOtherW tokApiW digestW
    .other (by decide) (by decide)

/-- Witness for C4 at concrete inputs: a malformed presented string is
rejected against the sample store. -/
theorem find_by_api_token_parse_failure_rejected_witness :
    find_by_api_token connW badTokW = .error .insecurelyGeneratedTokenRevoked :=
  find_by_api_token_parse_failure_rejected connW badTokW (by decide)

/-- Witness for C5 (amended) at concrete inputs: on the writable sample store
the returned row is touched to the current time and the stored rows step
monotonically. -/
theorem find_by_api_token_touch_monotonic_witness :
    (connW.writeError = none → rowTouchedW.last_used_at = some connW.now) ∧
    List.Forall₂ (fun q q' => q.id = q'.id ∧
      (q'.last_used_at = q.last_used_at ∨ q'.last_used_at = some connW.now) ∧
      (optTimeLe q.last_used_at (some connW.now) →
        optTimeLe q.last_used_at q'.last_used_at)) connW.rows connW'.rows :=
  find_by_api_token_touch_monotonic connW tokApiW rowTouchedW connW' (by decide)

/-- Witness for C6 at concrete inputs: the sample insert stores a fresh
non-revoked, never-used row and hands back the matching plaintext. -/
theorem insert_with_scopes_fresh_row_witness :
    createdW.model.revoked = false ∧
    createdW.model.last_used_at = none ∧
    connInsW.rows = connW.rows ++ [createdW.model] ∧
    createdW.plaintext = (SecureToken.generate .api secretW).plaintext ∧
    createdW.model.token = (SecureToken.generate .api secretW).digest ∧
    createdW.model.user_id = 7 ∧
    createdW.model.name = "tok2" ∧
    createdW.model.crate_scopes = some ["serde"] ∧
    createdW.model.endpoint_scopes = some ["publish"] :=
  insert_with_scopes_fresh_row connW 7 "tok2" (some ["serde"])
    (some ["publish"]) secretW createdW connInsW (by decide)

/-- Witness for C7 at concrete inputs: the sample secret round-trips through
generation and parsing. -/
theorem parse_generate_round_trip_witness :
    secretW.length = secretLen .api ∧
    secretW.all Char.isAlphanum = true ∧
    SecureToken.parse .api (SecureToken.generate .api secretW).plaintext =
      some (SecureToken.generate .api secretW).digest :=
  ⟨by decide, by decide,
   parse_generate_round_trip .api secretW (by decide) (by decide)⟩

/-- Witness for C8 at the concrete input 3: decoding inverts the declared
representation and rejects 3. -/
theorem DependencyKind.from_sql_decode_witness :
    (∀ k, DependencyKind.from_sql (DependencyKind.toInt k) = .ok k) ∧
    DependencyKind.from_sql 0 = .ok .Normal ∧
    DependencyKind.from_sql 1 = .ok .Build ∧
    DependencyKind.from_sql 2 = .ok .Dev ∧
    DependencyKind.from_sql 3 = .error ("unknown kind: " ++ toString (3 : Int)) :=
  DependencyKind.from_sql_decode 3 (by decide) (by decide) (by decide)

/-- Witness for C9 at concrete inputs: two created tokens sharing a model but
holding different plaintexts render identically. -/
theorem debugCreatedApiToken_plaintext_independent_witness :
    debugCreatedApiToken createdW = debugCreatedApiToken createdW2 :=
  debugCreatedApiToken_plaintext_independent createdW createdW2 rfl

/-- Witness for C10 at concrete inputs: two rows differing in every skipped
field serialize identically. -/
theorem serializeApiToken_skips_sensitive_witness :
    serializeApiToken rowFreshW = serializeApiToken rowSerB :=
  serializeApiToken_skips_sensitive rowFreshW rowSerB rfl rfl rfl rfl
